import Mathlib

/-!
Verification of the BTC loan monitor's price/alert pipeline.

Shallow embedding of the TypeScript source:
* `PriceAggregator` (`src/price-oracle/aggregator.ts`): median combine,
  TWAP, confidence, circuit breaker.
* `AlertEngine` (`src/alerts.ts`): edge-triggered price and LTV alerts.
* `LoanStore.classifyTier` (`src/store.ts`): risk-tier classification.

JavaScript numbers are modelled as rationals (`ℚ`); `Date.now()` is an
explicit `now` parameter threaded into each call that reads the clock.
All state mutation is explicit state passing.
-/

namespace LoanMonitor

/-- `PriceConfidence` from `types.ts`: `"HIGH" | "MEDIUM" | "LOW"`. -/
inductive PriceConfidence where
  | HIGH
  | MEDIUM
  | LOW
deriving DecidableEq, Repr

/-- Alert direction from `types.ts`: `"ABOVE" | "BELOW"`. -/
inductive Direction where
  | ABOVE
  | BELOW
deriving DecidableEq, Repr

/-- `PriceUpdate` from `types.ts`. -/
structure PriceUpdate where
  price : ℚ
  timestamp : ℚ
  sources : List String
  twap_5m : ℚ
  confidence : PriceConfidence
  circuit_breaker : Bool
deriving DecidableEq, Repr

/-- `PriceSample` (internal to the aggregator). -/
structure PriceSample where
  price : ℚ
  timestamp : ℚ
  sources : List String
deriving DecidableEq, Repr

/-- The per-source cell of `sourcePrices` (`{ price, timestamp }`). -/
structure SourceTick where
  price : ℚ
  timestamp : ℚ
deriving DecidableEq, Repr

/-- `PriceOracleConfig` from `types.ts`. -/
structure PriceOracleConfig where
  twap_window_seconds : ℚ
  circuit_breaker_pct : ℚ
  min_sources : ℕ
  price_poll_interval_ms : ℚ
deriving DecidableEq, Repr

/-- The default configuration built in `index.ts`. -/
def defaultConfig : PriceOracleConfig :=
  { twap_window_seconds := 300
    circuit_breaker_pct := 10
    min_sources := 1
    price_poll_interval_ms := 5000 }

/-- The mutable fields of class `PriceAggregator`.  `sourcePrices` is a
JavaScript `Map`, modelled as an insertion-ordered association list. -/
structure AggState where
  samples : List PriceSample
  sourcePrices : List (String × SourceTick)
  circuitBreakerActive : Bool
  lastKnownGoodPrice : ℚ
  circuitBreakerTriggeredAt : ℚ
  config : PriceOracleConfig
deriving DecidableEq, Repr

/-- A fresh `new PriceAggregator(config)`. -/
def initAgg (config : PriceOracleConfig) : AggState :=
  { samples := []
    sourcePrices := []
    circuitBreakerActive := false
    lastKnownGoodPrice := 0
    circuitBreakerTriggeredAt := 0
    config := config }

/-- `Map.set` on an insertion-ordered association list: overwrite in place
if the key is present, append otherwise. -/
def mapSet : List (String × SourceTick) → String → SourceTick →
    List (String × SourceTick)
  | [], k, v => [(k, v)]
  | (k', v') :: rest, k, v =>
      if k' = k then (k, v) :: rest else (k', v') :: mapSet rest k v

/-- `PriceAggregator.ingestTick`. -/
def ingestTick (s : AggState) (source : String) (price timestamp : ℚ) :
    AggState :=
  { s with sourcePrices := mapSet s.sourcePrices source ⟨price, timestamp⟩ }

/-- The freshness filter at the top of `computeUpdate`: the `(source, price)`
pairs whose tick is younger than 30 000 ms. -/
def freshSources (s : AggState) (now : ℚ) : List (String × ℚ) :=
  (s.sourcePrices.filter (fun p => now - p.2.timestamp < 30000)).map
    (fun p => (p.1, p.2.price))

/-- The median computation of `computeUpdate` (lines 48–52): sort ascending,
take the middle element for odd length, the mean of the two middle elements
for even length. -/
def medianOf (prices : List ℚ) : ℚ :=
  let sorted := prices.insertionSort (· ≤ ·)
  if sorted.length % 2 = 1 then
    sorted.getD (sorted.length / 2) 0
  else
    (sorted.getD (sorted.length / 2 - 1) 0 + sorted.getD (sorted.length / 2) 0) / 2

/-- `Math.min` over a list of prices (the list is nonempty at every call
site; the `[]` case is an arbitrary default). -/
def listMin : List ℚ → ℚ
  | [] => 0
  | p :: rest => rest.foldl min p

/-- `Math.max` over a list of prices. -/
def listMax : List ℚ → ℚ
  | [] => 0
  | p :: rest => rest.foldl max p

/-- `PriceAggregator.computeConfidence`. -/
def computeConfidence (sources : List (String × ℚ)) : PriceConfidence :=
  if 3 ≤ sources.length then
    let mn := listMin (sources.map Prod.snd)
    let mx := listMax (sources.map Prod.snd)
    let spread := (mx - mn) / mn
    if spread < 5 / 1000 then .HIGH
    else if spread < 1 / 100 then .MEDIUM
    else .LOW
  else if sources.length = 2 then .MEDIUM
  else .LOW

/-- The loop of `computeTwap`, returning `(weightedSum, totalWeight)`:
each sample is weighted by the interval until the next sample, the last by
the interval until `now`. -/
def twapSums (now : ℚ) : List PriceSample → ℚ × ℚ
  | [] => (0, 0)
  | [s] => (s.price * (now - s.timestamp), now - s.timestamp)
  | s :: t :: rest =>
      let acc := twapSums now (t :: rest)
      (s.price * (t.timestamp - s.timestamp) + acc.1,
       (t.timestamp - s.timestamp) + acc.2)

/-- `PriceAggregator.computeTwap`.  The JavaScript
`this.lastKnownGoodPrice || 0` equals `lastKnownGoodPrice` on rationals
(it is already `0` when unset). -/
def computeTwap (samples : List PriceSample) (lastKnownGoodPrice : ℚ)
    (now windowMs : ℚ) : ℚ :=
  let windowSamples := samples.filter (fun s => now - windowMs ≤ s.timestamp)
  match windowSamples with
  | [] => lastKnownGoodPrice
  | [s] => s.price
  | l =>
      let acc := twapSums now l
      if 0 < acc.2 then acc.1 / acc.2
      else ((l.getLast?).map PriceSample.price).getD 0

/-- `PriceAggregator.addSample`: push, then keep only the last 2 000. -/
def addSample (samples : List PriceSample) (sample : PriceSample) :
    List PriceSample :=
  let l := samples ++ [sample]
  if 2000 < l.length then l.drop (l.length - 2000) else l

/-- The accepted-update tail of `computeUpdate` (lines 85–100): advance
`lastKnownGoodPrice` to the median, append a sample carrying the median,
and return an update with `circuit_breaker = false`. -/
def acceptUpdate (s : AggState) (now : ℚ) (activeSources : List (String × ℚ))
    (medianPrice : ℚ) : Option PriceUpdate × AggState :=
  let s' := { s with
    lastKnownGoodPrice := medianPrice
    samples := addSample s.samples
      ⟨medianPrice, now, activeSources.map Prod.fst⟩ }
  (some
    { price := medianPrice
      timestamp := now
      sources := activeSources.map Prod.fst
      twap_5m := computeTwap s'.samples s'.lastKnownGoodPrice now (5 * 60 * 1000)
      confidence := computeConfidence activeSources
      circuit_breaker := false }, s')

/-- `PriceAggregator.computeUpdate`, with `Date.now()` passed in as `now`. -/
def computeUpdate (s : AggState) (now : ℚ) : Option PriceUpdate × AggState :=
  let activeSources := freshSources s now
  if activeSources = [] then (none, s)
  else
    let medianPrice := medianOf (activeSources.map Prod.snd)
    if 0 < s.lastKnownGoodPrice then
      let pctChange := |medianPrice - s.lastKnownGoodPrice| / s.lastKnownGoodPrice
      if s.config.circuit_breaker_pct / 100 < pctChange then
        let triggeredAt :=
          if s.circuitBreakerActive then s.circuitBreakerTriggeredAt else now
        let s1 := { s with
          circuitBreakerActive := true
          circuitBreakerTriggeredAt := triggeredAt }
        if now - triggeredAt < 60000 then
          let s2 := { s1 with
            samples := addSample s1.samples
              ⟨s.lastKnownGoodPrice, now, activeSources.map Prod.fst⟩ }
          (some
            { price := medianPrice
              timestamp := now
              sources := activeSources.map Prod.fst
              twap_5m := computeTwap s2.samples s2.lastKnownGoodPrice now
                (5 * 60 * 1000)
              confidence := computeConfidence activeSources
              circuit_breaker := true }, s2)
        else
          acceptUpdate { s1 with circuitBreakerActive := false } now
            activeSources medianPrice
      else
        acceptUpdate { s with circuitBreakerActive := false } now
          activeSources medianPrice
    else
      acceptUpdate s now activeSources medianPrice

/-- The successor timestamp of each sample in a window: the next sample's
timestamp, and `now` for the last sample.  Stated from the spec's wording of
the TWAP weighting, for comparison against the loop embedded in
`twapSums`. -/
def nextTimes (now : ℚ) (l : List PriceSample) : List ℚ :=
  (l.drop 1).map PriceSample.timestamp ++ [now]

/-- Spec-side weighted sum: each sample's price times the interval until
its successor time. -/
def specWeightedSum (now : ℚ) (l : List PriceSample) : ℚ :=
  (List.zipWith (fun s e => s.price * (e - s.timestamp)) l (nextTimes now l)).sum

/-- Spec-side total weight: the sum of the intervals. -/
def specTotalWeight (now : ℚ) (l : List PriceSample) : ℚ :=
  (List.zipWith (fun s e => e - s.timestamp) l (nextTimes now l)).sum

/-- `SelfServiceLoan` from `types.ts`, restricted to the fields the alert
engine and tier classifier read. -/
structure Loan where
  token : String
  loan_amount_usd : ℚ
  btc_collateral : ℚ
  margin_call_ltv : ℚ
  liquidation_ltv : ℚ
  chat_id : ℤ
deriving DecidableEq, Repr

/-- `PriceAlert` from `types.ts`. -/
structure PriceAlert where
  alert_id : String
  token : String
  threshold : ℚ
  direction : Direction
  triggered : Bool
  triggered_at : Option ℚ
deriving DecidableEq, Repr

/-- `LtvAlert` from `types.ts`. -/
structure LtvAlert where
  alert_id : String
  token : String
  ltv_threshold : ℚ
  direction : Direction
  triggered : Bool
  triggered_at : Option ℚ
deriving DecidableEq, Repr

/-- The read/write surface of `LoanStore` used by the alert engine. -/
structure Store where
  loans : List Loan
  priceAlerts : List PriceAlert
  ltvAlerts : List LtvAlert
  lastPrice : Option PriceUpdate
deriving DecidableEq, Repr

/-- `LoanStore.getLoan`. -/
def getLoan (st : Store) (token : String) : Option Loan :=
  st.loans.find? (fun l => l.token = token)

/-- A notification together with its matching `ALERT_TRIGGERED` system
event: the engine emits both, for the same alert, iff the alert crossed. -/
structure TriggerEvent where
  chat_id : ℤ
  alert_id : String
  value : ℚ
  threshold : ℚ
deriving DecidableEq, Repr

/-- The `crossed` computation of `checkPriceAlerts` for one alert. -/
def priceCrossed (direction : Direction) (threshold prev curr : ℚ) : Bool :=
  match direction with
  | .BELOW =>
      decide (0 < prev ∧ threshold ≤ prev ∧ curr < threshold) ||
      decide (prev = 0 ∧ curr < threshold)
  | .ABOVE =>
      decide (0 < prev ∧ prev ≤ threshold ∧ threshold < curr) ||
      decide (prev = 0 ∧ threshold < curr)

/-- One iteration of the `checkPriceAlerts` loop: skip triggered alerts and
alerts with no loan; otherwise mark the alert and emit notification plus
system event when it crossed. -/
def stepPriceAlert (loans : List Loan) (prev curr now : ℚ) (a : PriceAlert) :
    PriceAlert × List TriggerEvent :=
  if a.triggered then (a, [])
  else
    match loans.find? (fun l => l.token = a.token) with
    | none => (a, [])
    | some loan =>
        if priceCrossed a.direction a.threshold prev curr then
          ({ a with triggered := true, triggered_at := some now },
           [⟨loan.chat_id, a.alert_id, curr, a.threshold⟩])
        else (a, [])

/-- `AlertEngine.checkPriceAlerts`: the loop over all price alerts. -/
def checkPriceAlerts (loans : List Loan) (prev curr now : ℚ) :
    List PriceAlert → List PriceAlert × List TriggerEvent
  | [] => ([], [])
  | a :: rest =>
      let head := stepPriceAlert loans prev curr now a
      let tail := checkPriceAlerts loans prev curr now rest
      (head.1 :: tail.1, head.2 ++ tail.2)

/-- One iteration of the `checkLtvAlerts` loop.  `prevLtvs` is the engine's
`previousLtvs` map (`?? 0` when the token is absent). -/
def stepLtvAlert (loans : List Loan) (prevLtvs : List (String × ℚ))
    (curr now : ℚ) (a : LtvAlert) : LtvAlert × List TriggerEvent :=
  if a.triggered then (a, [])
  else
    match loans.find? (fun l => l.token = a.token) with
    | none => (a, [])
    | some loan =>
        let collateralUsd := loan.btc_collateral * curr
        if collateralUsd ≤ 0 then (a, [])
        else
          let currentLtv := loan.loan_amount_usd / collateralUsd
          let previousLtv :=
            ((prevLtvs.find? (fun p => p.1 = a.token)).map Prod.snd).getD 0
          if priceCrossed a.direction a.ltv_threshold previousLtv currentLtv then
            ({ a with triggered := true, triggered_at := some now },
             [⟨loan.chat_id, a.alert_id, currentLtv, a.ltv_threshold⟩])
          else (a, [])

/-- The alert-scanning loop of `AlertEngine.checkLtvAlerts`. -/
def checkLtvAlerts (loans : List Loan) (prevLtvs : List (String × ℚ))
    (curr now : ℚ) : List LtvAlert → List LtvAlert × List TriggerEvent
  | [] => ([], [])
  | a :: rest =>
      let head := stepLtvAlert loans prevLtvs curr now a
      let tail := checkLtvAlerts loans prevLtvs curr now rest
      (head.1 :: tail.1, head.2 ++ tail.2)

/-- `Map.set` on the engine's `previousLtvs` association list. -/
def ltvMapSet : List (String × ℚ) → String → ℚ → List (String × ℚ)
  | [], k, v => [(k, v)]
  | (k', v') :: rest, k, v =>
      if k' = k then (k, v) :: rest else (k', v') :: ltvMapSet rest k v

/-- The tail of `checkLtvAlerts`: refresh `previousLtvs` for every loan
whose collateral value at the current price is positive. -/
def refreshLtvs (loans : List Loan) (curr : ℚ)
    (prevLtvs : List (String × ℚ)) : List (String × ℚ) :=
  loans.foldl
    (fun acc loan =>
      let collateralUsd := loan.btc_collateral * curr
      if 0 < collateralUsd then
        ltvMapSet acc loan.token (loan.loan_amount_usd / collateralUsd)
      else acc)
    prevLtvs

/-- The mutable fields of class `AlertEngine`, together with the store it
owns writes to. -/
structure EngineState where
  store : Store
  previousPrice : ℚ
  previousLtvs : List (String × ℚ)
deriving DecidableEq, Repr

/-- `AlertEngine.onPriceUpdate`, with `Date.now()` passed in as `now`.
Returns the new state and the trigger events (notification plus
`ALERT_TRIGGERED`) emitted while processing this update. -/
def onPriceUpdate (e : EngineState) (update : PriceUpdate) (now : ℚ) :
    EngineState × List TriggerEvent :=
  let currentPrice := update.price
  let st := { e.store with lastPrice := some update }
  let pr := checkPriceAlerts st.loans e.previousPrice currentPrice now
    st.priceAlerts
  let lv := checkLtvAlerts st.loans e.previousLtvs currentPrice now
    st.ltvAlerts
  let prevLtvs' := refreshLtvs st.loans currentPrice e.previousLtvs
  ({ store := { st with priceAlerts := pr.1, ltvAlerts := lv.1 }
     previousPrice := currentPrice
     previousLtvs := prevLtvs' },
   pr.2 ++ lv.2)

/-- `AlertEngine.processPrice`: wraps a bare price in a synthetic
`PriceUpdate` and delivers it. -/
def processPrice (e : EngineState) (price now : ℚ) :
    EngineState × List TriggerEvent :=
  onPriceUpdate e
    { price := price
      timestamp := now
      sources := ["test"]
      twap_5m := price
      confidence := .HIGH
      circuit_breaker := false } now

/-- Deliver a list of `(price, now)` updates in order, accumulating all
trigger events. -/
def runUpdates (e : EngineState) : List (ℚ × ℚ) →
    EngineState × List TriggerEvent
  | [] => (e, [])
  | u :: rest =>
      let step := processPrice e u.1 u.2
      let tail := runUpdates step.1 rest
      (tail.1, step.2 ++ tail.2)

/-- `RiskTier` from `types.ts`. -/
inductive RiskTier where
  | GREEN
  | YELLOW
  | ORANGE
  | RED
  | LIQUIDATION
deriving DecidableEq, Repr

/-- `LoanStore.classifyTier`. -/
def classifyTier (ltv marginCallLtv liquidationLtv : ℚ) : RiskTier :=
  if liquidationLtv ≤ ltv then .LIQUIDATION
  else if marginCallLtv ≤ ltv then .RED
  else
    let yellowThreshold := marginCallLtv * (8 / 10)
    if yellowThreshold ≤ ltv then .ORANGE
    else
      let greenThreshold := marginCallLtv * (6 / 10)
      if greenThreshold ≤ ltv then .YELLOW
      else .GREEN

/-- The loan of scenario S2 (also used by the S3/S4 suite shape): 50 000 USD
against 1 BTC, margin call 0.75, liquidation 0.90, chat 44444. -/
def s2Loan : Loan := ⟨"tok", 50000, 1, 75 / 100, 90 / 100, 44444⟩

/-- The S2 alert: BELOW 60 000, not yet triggered. -/
def s2Alert : PriceAlert := ⟨"a1", "tok", 60000, .BELOW, false, none⟩

/-- A fresh alert engine over a store holding exactly the S2 loan and
alert (`previousPrice = 0`, empty LTV cache). -/
def s2Engine : EngineState := ⟨⟨[s2Loan], [s2Alert], [], none⟩, 0, []⟩

/-- The aggregator of scenario S5 after ingesting Kraken = 60 000,
Coinbase = 60 500 and Bitstamp = 60 200, all at timestamp 0. -/
def c8State : AggState :=
  ingestTick (ingestTick (ingestTick (initAgg defaultConfig)
    "Kraken" 60000 0) "Coinbase" 60500 0) "Bitstamp" 60200 0

/-- Scenario S6, step 0: one source at 60 000, timestamp 0. -/
def cbState0 : AggState := ingestTick (initAgg defaultConfig) "Kraken" 60000 0

/-- Scenario S6, step 1: accept 60 000 at time 0 (establishes
`last_known_good = 60 000`), then the source jumps to 72 000 at 5 000. -/
def cbState1 : AggState :=
  ingestTick (computeUpdate cbState0 0).2 "Kraken" 72000 5000

/-- Scenario S6, step 2: the 72 000 tick at 5 000 trips the breaker; the
source then repeats 72 000 at 66 000, which is 61 s after the trip. -/
def cbState2 : AggState :=
  ingestTick (computeUpdate cbState1 5000).2 "Kraken" 72000 66000

/-! ### Helper lemmas about the aggregator -/

/-- `computeUpdate` returns `null` exactly when the freshness filter keeps
no source. -/
theorem computeUpdate_none_iff (s : AggState) (now : ℚ) :
    (computeUpdate s now).1 = none ↔ freshSources s now = [] := by
  simp only [computeUpdate, acceptUpdate]
  split_ifs <;> simp_all

/-- Every non-null update carries the median of the fresh prices. -/
theorem computeUpdate_price (s : AggState) (now : ℚ) :
    ((computeUpdate s now).1).map PriceUpdate.price =
      if freshSources s now = [] then none
      else some (medianOf ((freshSources s now).map Prod.snd)) := by
  simp only [computeUpdate, acceptUpdate]
  split_ifs <;> simp_all

/-- Every non-null update carries `computeConfidence` of the fresh source
set. -/
theorem computeUpdate_confidence (s : AggState) (now : ℚ) :
    ((computeUpdate s now).1).map PriceUpdate.confidence =
      if freshSources s now = [] then none
      else some (computeConfidence (freshSources s now)) := by
  simp only [computeUpdate, acceptUpdate]
  split_ifs <;> simp_all

/-- Every non-null update's `twap_5m` is `computeTwap` over the
post-append sample ring with the post-update last-known-good price and a
300 000 ms window. -/
theorem computeUpdate_twap (s : AggState) (now : ℚ) (u : PriceUpdate)
    (s' : AggState) (h : computeUpdate s now = (some u, s')) :
    u.twap_5m = computeTwap s'.samples s'.lastKnownGoodPrice now 300000 := by
  have h300 : (5 * 60 * 1000 : ℚ) = 300000 := by norm_num
  simp only [computeUpdate, acceptUpdate] at h
  split_ifs at h <;> simp_all <;> rw [← h.1, ← h.2] <;> simp [h300]

/-- `lastKnownGoodPrice` changes only when `computeUpdate` returns an
accepted (`circuit_breaker = false`) update, and then it becomes that
update's median price. -/
theorem lastKnownGood_change (s : AggState) (now : ℚ)
    (h : (computeUpdate s now).2.lastKnownGoodPrice ≠ s.lastKnownGoodPrice) :
    ∃ u, (computeUpdate s now).1 = some u ∧ u.circuit_breaker = false ∧
      u.price = (computeUpdate s now).2.lastKnownGoodPrice ∧
      u.price = medianOf ((freshSources s now).map Prod.snd) := by
  simp only [computeUpdate, acceptUpdate] at *
  split_ifs at * <;> simp_all

/-- The tripped branch of `computeUpdate`: deviation beyond the threshold
and less than 60 s since the trip yield a flagged update carrying the
median while the appended sample carries `lastKnownGoodPrice`, which is
not advanced. -/
theorem tripped_branch (s : AggState) (now : ℚ)
    (hA : freshSources s now ≠ [])
    (hlkg : 0 < s.lastKnownGoodPrice)
    (hdev : s.config.circuit_breaker_pct / 100 <
      |medianOf ((freshSources s now).map Prod.snd) - s.lastKnownGoodPrice| /
        s.lastKnownGoodPrice)
    (helapsed : now - (if s.circuitBreakerActive then s.circuitBreakerTriggeredAt
      else now) < 60000) :
    ((computeUpdate s now).1).map PriceUpdate.price =
        some (medianOf ((freshSources s now).map Prod.snd)) ∧
    ((computeUpdate s now).1).map PriceUpdate.circuit_breaker = some true ∧
    (computeUpdate s now).2.samples = addSample s.samples
      ⟨s.lastKnownGoodPrice, now, (freshSources s now).map Prod.fst⟩ ∧
    (computeUpdate s now).2.lastKnownGoodPrice = s.lastKnownGoodPrice := by
  simp only [computeUpdate, acceptUpdate]
  by_cases hb : s.circuitBreakerActive <;> simp [hb] at helapsed ⊢ <;>
    split_ifs <;> simp_all

/-- The clearing branch: 60 s or more after the trip, a still-deviating
median is accepted — the breaker clears, the update is unflagged and
`lastKnownGoodPrice` advances to the deviant median. -/
theorem clear_branch (s : AggState) (now : ℚ)
    (hA : freshSources s now ≠ [])
    (hlkg : 0 < s.lastKnownGoodPrice)
    (hdev : s.config.circuit_breaker_pct / 100 <
      |medianOf ((freshSources s now).map Prod.snd) - s.lastKnownGoodPrice| /
        s.lastKnownGoodPrice)
    (hb : s.circuitBreakerActive = true)
    (helapsed : 60000 ≤ now - s.circuitBreakerTriggeredAt) :
    ((computeUpdate s now).1).map PriceUpdate.circuit_breaker = some false ∧
    ((computeUpdate s now).1).map PriceUpdate.price =
        some (medianOf ((freshSources s now).map Prod.snd)) ∧
    (computeUpdate s now).2.lastKnownGoodPrice =
        medianOf ((freshSources s now).map Prod.snd) ∧
    (computeUpdate s now).2.circuitBreakerActive = false := by
  simp only [computeUpdate, acceptUpdate]
  simp [hb]
  split_ifs <;> simp_all <;> linarith

/-- A deviation beyond the threshold while the breaker is clear trips it:
flagged update, `lastKnownGoodPrice` unchanged, trip time recorded. -/
theorem fresh_trip (s : AggState) (now : ℚ)
    (hA : freshSources s now ≠ [])
    (hlkg : 0 < s.lastKnownGoodPrice)
    (hdev : s.config.circuit_breaker_pct / 100 <
      |medianOf ((freshSources s now).map Prod.snd) - s.lastKnownGoodPrice| /
        s.lastKnownGoodPrice)
    (hb : s.circuitBreakerActive = false) :
    ((computeUpdate s now).1).map PriceUpdate.circuit_breaker = some true ∧
    (computeUpdate s now).2.lastKnownGoodPrice = s.lastKnownGoodPrice ∧
    (computeUpdate s now).2.circuitBreakerActive = true ∧
    (computeUpdate s now).2.circuitBreakerTriggeredAt = now := by
  simp only [computeUpdate, acceptUpdate]
  simp [hb]
  split_ifs <;> simp_all

/-! ### Helper lemmas about the alert engine -/

/-- A non-triggered BELOW alert fires exactly when its loan exists and the
price crossed downward (or the engine had no previous price and the price
is already below). -/
theorem below_fires_iff (id tok : String) (thr : ℚ) (ta : Option ℚ)
    (loans : List Loan) (prev curr now : ℚ) :
    (stepPriceAlert loans prev curr now ⟨id, tok, thr, .BELOW, false, ta⟩).2 ≠ [] ↔
      ((loans.find? (fun l => l.token = tok)).isSome ∧
        ((0 < prev ∧ thr ≤ prev ∧ curr < thr) ∨ (prev = 0 ∧ curr < thr))) := by
  cases h : loans.find? (fun l => l.token = tok) with
  | none => simp [stepPriceAlert, h]
  | some loan =>
      simp only [stepPriceAlert, h, priceCrossed]
      split_ifs <;> simp_all

/-- The symmetric characterization for a non-triggered ABOVE alert. -/
theorem above_fires_iff (id tok : String) (thr : ℚ) (ta : Option ℚ)
    (loans : List Loan) (prev curr now : ℚ) :
    (stepPriceAlert loans prev curr now ⟨id, tok, thr, .ABOVE, false, ta⟩).2 ≠ [] ↔
      ((loans.find? (fun l => l.token = tok)).isSome ∧
        ((0 < prev ∧ prev ≤ thr ∧ thr < curr) ∨ (prev = 0 ∧ thr < curr))) := by
  cases h : loans.find? (fun l => l.token = tok) with
  | none => simp [stepPriceAlert, h]
  | some loan =>
      simp only [stepPriceAlert, h, priceCrossed]
      split_ifs <;> simp_all

/-- A triggered price alert is skipped: unchanged, no events. -/
theorem step_triggered (loans : List Loan) (prev curr now : ℚ) (a : PriceAlert)
    (h : a.triggered = true) :
    stepPriceAlert loans prev curr now a = (a, []) := by
  simp [stepPriceAlert, h]

/-- `stepPriceAlert` never changes an alert's id. -/
theorem step_alert_id (loans : List Loan) (prev curr now : ℚ) (a : PriceAlert) :
    ((stepPriceAlert loans prev curr now a).1).alert_id = a.alert_id := by
  by_cases ht : a.triggered <;> simp only [stepPriceAlert, ht] <;> try rfl
  simp only [Bool.false_eq_true, if_false]
  cases h : loans.find? (fun l => l.token = a.token) <;> simp only
  split_ifs <;> rfl

/-- Every event emitted by `stepPriceAlert` names the processed alert. -/
theorem step_event_ids (loans : List Loan) (prev curr now : ℚ) (a : PriceAlert) :
    ∀ ev ∈ (stepPriceAlert loans prev curr now a).2, ev.alert_id = a.alert_id := by
  by_cases ht : a.triggered
  · simp [stepPriceAlert, ht]
  · simp only [stepPriceAlert, ht, Bool.false_eq_true, if_false]
    cases h : loans.find? (fun l => l.token = a.token) <;> simp only
    · simp
    · split_ifs <;> simp

/-- A triggered LTV alert is skipped: unchanged, no events. -/
theorem stepLtv_triggered (loans : List Loan) (prevLtvs : List (String × ℚ))
    (curr now : ℚ) (a : LtvAlert) (h : a.triggered = true) :
    stepLtvAlert loans prevLtvs curr now a = (a, []) := by
  simp [stepLtvAlert, h]

/-- `stepLtvAlert` never changes an alert's id. -/
theorem stepLtv_alert_id (loans : List Loan) (prevLtvs : List (String × ℚ))
    (curr now : ℚ) (a : LtvAlert) :
    ((stepLtvAlert loans prevLtvs curr now a).1).alert_id = a.alert_id := by
  by_cases ht : a.triggered
  · simp [stepLtvAlert, ht]
  · simp only [stepLtvAlert, ht, Bool.false_eq_true, if_false]
    cases h : loans.find? (fun l => l.token = a.token) <;> simp only <;>
      split_ifs <;> rfl

/-- Every event emitted by `stepLtvAlert` names the processed alert. -/
theorem stepLtv_event_ids (loans : List Loan) (prevLtvs : List (String × ℚ))
    (curr now : ℚ) (a : LtvAlert) :
    ∀ ev ∈ (stepLtvAlert loans prevLtvs curr now a).2, ev.alert_id = a.alert_id := by
  by_cases ht : a.triggered
  · simp [stepLtvAlert, ht]
  · simp only [stepLtvAlert, ht, Bool.false_eq_true, if_false]
    cases h : loans.find? (fun l => l.token = a.token) <;> simp only
    · simp
    · split_ifs <;> simp

/-- If every price alert bearing a given id is already triggered, the
price sweep emits no event with that id and preserves the property. -/
theorem checkPrice_invariant (loans : List Loan) (prev curr now : ℚ)
    (aid : String) (l : List PriceAlert)
    (hp : ∀ b ∈ l, b.alert_id = aid → b.triggered = true) :
    (∀ ev ∈ (checkPriceAlerts loans prev curr now l).2, ev.alert_id ≠ aid) ∧
    (∀ b ∈ (checkPriceAlerts loans prev curr now l).1,
      b.alert_id = aid → b.triggered = true) := by
  induction l with
  | nil => simp [checkPriceAlerts]
  | cons a rest ih =>
      have hrest := ih (fun b hb => hp b (List.mem_cons_of_mem a hb))
      simp only [checkPriceAlerts]
      constructor
      · intro ev hev
        rcases List.mem_append.mp hev with hhd | htl
        · have hevid := step_event_ids loans prev curr now a ev hhd
          by_cases hid : a.alert_id = aid
          · have ht := hp a (List.mem_cons_self a rest) hid
            rw [step_triggered loans prev curr now a ht] at hhd
            simp at hhd
          · rw [hevid]; exact hid
        · exact hrest.1 ev htl
      · intro b hb hbid
        rcases List.mem_cons.mp hb with hhd | htl
        · subst hhd
          by_cases hid : a.alert_id = aid
          · have ht := hp a (List.mem_cons_self a rest) hid
            rw [step_triggered loans prev curr now a ht]
            exact ht
          · exact absurd (by rw [← step_alert_id loans prev curr now a, hbid]) hid
        · exact hrest.2 b htl hbid

/-- The same invariant for the LTV sweep. -/
theorem checkLtv_invariant (loans : List Loan) (prevLtvs : List (String × ℚ))
    (curr now : ℚ) (aid : String) (l : List LtvAlert)
    (hp : ∀ b ∈ l, b.alert_id = aid → b.triggered = true) :
    (∀ ev ∈ (checkLtvAlerts loans prevLtvs curr now l).2, ev.alert_id ≠ aid) ∧
    (∀ b ∈ (checkLtvAlerts loans prevLtvs curr now l).1,
      b.alert_id = aid → b.triggered = true) := by
  induction l with
  | nil => simp [checkLtvAlerts]
  | cons a rest ih =>
      have hrest := ih (fun b hb => hp b (List.mem_cons_of_mem a hb))
      simp only [checkLtvAlerts]
      constructor
      · intro ev hev
        rcases List.mem_append.mp hev with hhd | htl
        · have hevid := stepLtv_event_ids loans prevLtvs curr now a ev hhd
          by_cases hid : a.alert_id = aid
          · have ht := hp a (List.mem_cons_self a rest) hid
            rw [stepLtv_triggered loans prevLtvs curr now a ht] at hhd
            simp at hhd
          · rw [hevid]; exact hid
        · exact hrest.1 ev htl
      · intro b hb hbid
        rcases List.mem_cons.mp hb with hhd | htl
        · subst hhd
          by_cases hid : a.alert_id = aid
          · have ht := hp a (List.mem_cons_self a rest) hid
            rw [stepLtv_triggered loans prevLtvs curr now a ht]
            exact ht
          · exact absurd (by rw [← stepLtv_alert_id loans prevLtvs curr now a, hbid]) hid
        · exact hrest.2 b htl hbid

/-- One delivered update neither re-notifies nor un-triggers any alert
whose id is fully triggered in the store. -/
theorem onPriceUpdate_invariant (e : EngineState) (update : PriceUpdate)
    (now : ℚ) (aid : String)
    (hp : ∀ b ∈ e.store.priceAlerts, b.alert_id = aid → b.triggered = true)
    (hl : ∀ b ∈ e.store.ltvAlerts, b.alert_id = aid → b.triggered = true) :
    (∀ ev ∈ (onPriceUpdate e update now).2, ev.alert_id ≠ aid) ∧
    (∀ b ∈ (onPriceUpdate e update now).1.store.priceAlerts,
      b.alert_id = aid → b.triggered = true) ∧
    (∀ b ∈ (onPriceUpdate e update now).1.store.ltvAlerts,
      b.alert_id = aid → b.triggered = true) := by
  have hcp := checkPrice_invariant e.store.loans e.previousPrice update.price now
    aid e.store.priceAlerts hp
  have hcl := checkLtv_invariant e.store.loans e.previousLtvs update.price now
    aid e.store.ltvAlerts hl
  refine ⟨?_, ?_, ?_⟩
  · intro ev hev
    simp only [onPriceUpdate] at hev
    rcases List.mem_append.mp hev with hh | ht
    · exact hcp.1 ev hh
    · exact hcl.1 ev ht
  · intro b hb
    simp only [onPriceUpdate] at hb
    exact hcp.2 b hb
  · intro b hb
    simp only [onPriceUpdate] at hb
    exact hcl.2 b hb

/-- The invariant of `onPriceUpdate_invariant` extended along any finite
sequence of delivered updates. -/
theorem runUpdates_invariant (updates : List (ℚ × ℚ)) (e : EngineState)
    (aid : String)
    (hp : ∀ b ∈ e.store.priceAlerts, b.alert_id = aid → b.triggered = true)
    (hl : ∀ b ∈ e.store.ltvAlerts, b.alert_id = aid → b.triggered = true) :
    (∀ ev ∈ (runUpdates e updates).2, ev.alert_id ≠ aid) ∧
    (∀ b ∈ (runUpdates e updates).1.store.priceAlerts,
      b.alert_id = aid → b.triggered = true) ∧
    (∀ b ∈ (runUpdates e updates).1.store.ltvAlerts,
      b.alert_id = aid → b.triggered = true) := by
  induction updates generalizing e with
  | nil => exact ⟨by simp [runUpdates], hp, hl⟩
  | cons u rest ih =>
      have hstep := onPriceUpdate_invariant e
        { price := u.1, timestamp := u.2, sources := ["test"], twap_5m := u.1,
          confidence := .HIGH, circuit_breaker := false } u.2 aid hp hl
      have htail := ih (processPrice e u.1 u.2).1 hstep.2.1 hstep.2.2
      refine ⟨?_, htail.2.1, htail.2.2⟩
      intro ev hev
      simp only [runUpdates] at hev
      rcases List.mem_append.mp hev with hh | ht
      · exact hstep.1 ev hh
      · exact htail.1 ev ht

/-! ### Helper lemmas about median, confidence and TWAP -/

/-- The median of three prices is their middle value
(`sum - min - max`). -/
theorem medianOf_three (a b c : ℚ) :
    medianOf [a, b, c] = a + b + c - min a (min b c) - max a (max b c) := by
  have key : ∀ (l : List ℚ) (p q r : ℚ),
      l.insertionSort (· ≤ ·) = [p, q, r] → medianOf l = q := by
    intro l p q r h
    simp only [medianOf, h]
    norm_num [List.getD]
  by_cases h1 : b ≤ c <;> by_cases h2 : a ≤ b <;> by_cases h3 : a ≤ c
  · have hs : [a, b, c].insertionSort (· ≤ ·) = [a, b, c] := by
      simp [List.insertionSort, List.orderedInsert, h1, h2, h3]
    rw [key [a, b, c] a b c hs]
    simp [min_def, max_def]
    split_ifs <;> linarith
  · exact absurd (h2.trans h1) h3
  · have hs : [a, b, c].insertionSort (· ≤ ·) = [b, a, c] := by
      simp [List.insertionSort, List.orderedInsert, h1, h2, h3]
    rw [key [a, b, c] b a c hs]
    simp [min_def, max_def]
    split_ifs <;> linarith
  · have hs : [a, b, c].insertionSort (· ≤ ·) = [b, c, a] := by
      simp [List.insertionSort, List.orderedInsert, h1, h2, h3]
    rw [key [a, b, c] b c a hs]
    simp [min_def, max_def]
    split_ifs <;> linarith
  · have hs : [a, b, c].insertionSort (· ≤ ·) = [a, c, b] := by
      simp [List.insertionSort, List.orderedInsert, h1, h2, h3]
    rw [key [a, b, c] a c b hs]
    simp [min_def, max_def]
    split_ifs <;> linarith
  · have hs : [a, b, c].insertionSort (· ≤ ·) = [c, a, b] := by
      simp [List.insertionSort, List.orderedInsert, h1, h2, h3]
    rw [key [a, b, c] c a b hs]
    simp [min_def, max_def]
    split_ifs <;> linarith
  · exfalso
    linarith [not_le.mp h1, not_le.mp h2]
  · have hs : [a, b, c].insertionSort (· ≤ ·) = [c, b, a] := by
      simp [List.insertionSort, List.orderedInsert, h1, h2, h3]
    rw [key [a, b, c] c b a hs]
    simp [min_def, max_def]
    split_ifs <;> linarith

/-- With three or more fresh sources the confidence bands are determined
by the relative spread. -/
theorem confidence_three (srcs : List (String × ℚ)) (h3 : 3 ≤ srcs.length) :
    (computeConfidence srcs = .HIGH ↔
      (listMax (srcs.map Prod.snd) - listMin (srcs.map Prod.snd)) /
        listMin (srcs.map Prod.snd) < 5 / 1000) ∧
    (computeConfidence srcs = .MEDIUM ↔
      (5 / 1000 ≤ (listMax (srcs.map Prod.snd) - listMin (srcs.map Prod.snd)) /
        listMin (srcs.map Prod.snd) ∧
       (listMax (srcs.map Prod.snd) - listMin (srcs.map Prod.snd)) /
        listMin (srcs.map Prod.snd) < 1 / 100)) ∧
    (computeConfidence srcs = .LOW ↔
      1 / 100 ≤ (listMax (srcs.map Prod.snd) - listMin (srcs.map Prod.snd)) /
        listMin (srcs.map Prod.snd)) := by
  simp only [computeConfidence, if_pos h3]
  split_ifs with ha hb <;> refine ⟨?_, ?_, ?_⟩ <;> simp_all <;> linarith

/-- Two fresh sources always yield MEDIUM confidence. -/
theorem confidence_two (srcs : List (String × ℚ)) (h : srcs.length = 2) :
    computeConfidence srcs = .MEDIUM := by
  simp [computeConfidence, h]

/-- One fresh source always yields LOW confidence. -/
theorem confidence_one (srcs : List (String × ℚ)) (h : srcs.length = 1) :
    computeConfidence srcs = .LOW := by
  simp [computeConfidence, h]

/-- The median of two prices is their mean. -/
theorem medianOf_two (a b : ℚ) : medianOf [a, b] = (min a b + max a b) / 2 := by
  have key : ∀ (l : List ℚ) (p q : ℚ), l.insertionSort (· ≤ ·) = [p, q] →
      medianOf l = (p + q) / 2 := by
    intro l p q h
    simp only [medianOf, h]
    norm_num [List.getD]
  by_cases hab : a ≤ b
  · have hs : [a, b].insertionSort (· ≤ ·) = [a, b] := by
      simp [List.insertionSort, List.orderedInsert, hab]
    rw [key [a, b] a b hs, min_eq_left hab, max_eq_right hab]
  · have hab' := le_of_not_le hab
    have hs : [a, b].insertionSort (· ≤ ·) = [b, a] := by
      simp [List.insertionSort, List.orderedInsert, hab]
    rw [key [a, b] b a hs, min_eq_right hab', max_eq_left hab']

/-- The TWAP loop computes the spec-side weighted sum and total weight. -/
theorem twapSums_spec (now : ℚ) (l : List PriceSample) :
    twapSums now l = (specWeightedSum now l, specTotalWeight now l) := by
  induction l with
  | nil => simp [twapSums, specWeightedSum, specTotalWeight, nextTimes]
  | cons s rest ih =>
      cases rest with
      | nil => simp [twapSums, specWeightedSum, specTotalWeight, nextTimes]
      | cons t rest' =>
          simp only [twapSums, ih, specWeightedSum, specTotalWeight, nextTimes,
            List.drop_one, List.tail_cons, List.map_cons, List.zipWith_cons_cons,
            List.sum_cons, List.map, List.zipWith]
          constructor <;> ring

/-- An empty TWAP window falls back to the last known good price (which is
0 when none was ever recorded). -/
theorem computeTwap_empty (samples : List PriceSample) (lkg now w : ℚ)
    (h : samples.filter (fun x => now - w ≤ x.timestamp) = []) :
    computeTwap samples lkg now w = lkg := by
  unfold computeTwap
  rw [h]

/-- A singleton TWAP window yields that sample's price. -/
theorem computeTwap_single (samples : List PriceSample) (lkg now w : ℚ)
    (smp : PriceSample)
    (h : samples.filter (fun x => now - w ≤ x.timestamp) = [smp]) :
    computeTwap samples lkg now w = smp.price := by
  unfold computeTwap
  rw [h]

/-- With positive total weight, the TWAP is the interval-weighted average
of the window samples. -/
theorem computeTwap_weighted (samples : List PriceSample) (lkg now w : ℚ)
    (hw : 0 < specTotalWeight now
      (samples.filter (fun x => now - w ≤ x.timestamp))) :
    computeTwap samples lkg now w =
      specWeightedSum now (samples.filter (fun x => now - w ≤ x.timestamp)) /
        specTotalWeight now (samples.filter (fun x => now - w ≤ x.timestamp)) := by
  unfold computeTwap
  cases hws : samples.filter (fun x => now - w ≤ x.timestamp) with
  | nil => rw [hws] at hw; simp [specTotalWeight, nextTimes] at hw
  | cons s rest =>
      cases rest with
      | nil =>
          dsimp only
          have hw1 : specWeightedSum now [s] = s.price * (now - s.timestamp) := by
            simp [specWeightedSum, nextTimes]
          have hw2 : specTotalWeight now [s] = now - s.timestamp := by
            simp [specTotalWeight, nextTimes]
          rw [hw1, hw2]
          rw [hws, hw2] at hw
          rw [mul_div_assoc, div_self hw.ne', mul_one]
      | cons t rest' =>
          dsimp only
          rw [twapSums_spec]
          dsimp only
          rw [hws] at hw
          rw [if_pos hw]

/-- The risk-tier bands of `classifyTier`, for any loan satisfying the
data-model constraints `0 < margin_call_ltv < liquidation_ltv`. -/
theorem classify_iffs (ltv mc liq : ℚ) (hmc : 0 < mc) (hlt : mc < liq) :
    (classifyTier ltv mc liq = .LIQUIDATION ↔ liq ≤ ltv) ∧
    (classifyTier ltv mc liq = .RED ↔ mc ≤ ltv ∧ ltv < liq) ∧
    (classifyTier ltv mc liq = .ORANGE ↔ mc * (8 / 10) ≤ ltv ∧ ltv < mc) ∧
    (classifyTier ltv mc liq = .YELLOW ↔ mc * (6 / 10) ≤ ltv ∧ ltv < mc * (8 / 10)) ∧
    (classifyTier ltv mc liq = .GREEN ↔ ltv < mc * (6 / 10)) := by
  simp only [classifyTier]
  split_ifs <;> refine ⟨?_, ?_, ?_, ?_, ?_⟩ <;> simp_all <;>
    first
    | (intros; linarith)
    | (constructor <;> linarith)
    | (rintro ⟨h1, h2⟩; linarith)

/-! ### Scenario runs -/

/-- S2, tick 1: deliver 70 000 to the fresh engine. -/
def s2Run1 : EngineState × List TriggerEvent := processPrice s2Engine 70000 1

/-- S2, tick 2: deliver 65 000. -/
def s2Run2 : EngineState × List TriggerEvent := processPrice s2Run1.1 65000 2

/-- S2, tick 3: deliver 58 000 (crosses below 60 000). -/
def s2Run3 : EngineState × List TriggerEvent := processPrice s2Run2.1 58000 3

/-- S2, tick 4: deliver 55 000. -/
def s2Run4 : EngineState × List TriggerEvent := processPrice s2Run3.1 55000 4

/-- An engine whose only alert (id `a1`) is already triggered. -/
def c2Engine : EngineState :=
  ⟨⟨[s2Loan], [⟨"a1", "tok", 60000, .BELOW, true, some 3⟩], [], none⟩, 58000, []⟩

/-! ### Concrete evaluations of the scenario states -/

/-- After accepting 60 000 at time 0, the S6 aggregator holds one sample
and `last_known_good = 60 000`; the source then reads 72 000 at 5 000. -/
theorem cbState1_eq : cbState1 =
    ⟨[⟨60000, 0, ["Kraken"]⟩], [("Kraken", ⟨72000, 5000⟩)],
      false, 60000, 0, defaultConfig⟩ := by
  norm_num [cbState1, cbState0, ingestTick, initAgg, mapSet, computeUpdate,
    acceptUpdate, freshSources, medianOf, List.insertionSort, List.orderedInsert,
    addSample, computeTwap, computeConfidence, listMin, listMax, twapSums,
    List.getD, defaultConfig]

/-- After the 72 000 tick trips the breaker at time 5 000, the appended
sample carries 60 000 and the trip time is recorded; the source then reads
72 000 again at 66 000. -/
theorem cbState2_eq : cbState2 =
    ⟨[⟨60000, 0, ["Kraken"]⟩, ⟨60000, 5000, ["Kraken"]⟩],
      [("Kraken", ⟨72000, 66000⟩)], true, 60000, 5000, defaultConfig⟩ := by
  rw [cbState2, cbState1_eq]
  norm_num [ingestTick, mapSet, computeUpdate, acceptUpdate, freshSources,
    medianOf, List.insertionSort, List.orderedInsert, addSample, computeTwap,
    computeConfidence, listMin, listMax, twapSums, List.getD, defaultConfig]

/-- The only fresh source of `cbState1` at time 5 000. -/
theorem freshSources_cbState1 :
    freshSources cbState1 5000 = [("Kraken", 72000)] := by
  rw [cbState1_eq]
  norm_num [freshSources]

/-- The only fresh source of `cbState2` at time 66 000. -/
theorem freshSources_cbState2 :
    freshSources cbState2 66000 = [("Kraken", 72000)] := by
  rw [cbState2_eq]
  norm_num [freshSources]

/-- The fresh median of `cbState1` at time 5 000 is the deviant 72 000. -/
theorem median_cbState1 :
    medianOf ((freshSources cbState1 5000).map Prod.snd) = 72000 := by
  rw [freshSources_cbState1]
  norm_num [medianOf, List.insertionSort, List.orderedInsert, List.getD]

/-- The fresh median of `cbState2` at time 66 000 is still 72 000. -/
theorem median_cbState2 :
    medianOf ((freshSources cbState2 66000).map Prod.snd) = 72000 := by
  rw [freshSources_cbState2]
  norm_num [medianOf, List.insertionSort, List.orderedInsert, List.getD]

/-- The literal value of the S5 aggregator state. -/
theorem c8State_eq : c8State =
    ⟨[], [("Kraken", ⟨60000, 0⟩), ("Coinbase", ⟨60500, 0⟩),
      ("Bitstamp", ⟨60200, 0⟩)], false, 0, 0, defaultConfig⟩ := rfl

/-- Full evaluation of `computeUpdate` on the S5 state: price 60 200
(the median), sources in ingestion order, confidence MEDIUM. -/
theorem c8_update_fst : (computeUpdate c8State 0).1 =
    some ⟨60200, 0, ["Kraken", "Coinbase", "Bitstamp"], 60200, .MEDIUM, false⟩ := by
  rw [c8State_eq]
  norm_num [computeUpdate, acceptUpdate, freshSources, medianOf,
    List.insertionSort, List.orderedInsert, List.getD, addSample, computeTwap,
    computeConfidence, listMin, listMax, twapSums, defaultConfig,
    List.cons_ne_nil]

/-- The S5 spread (500 / 60 000 ≈ 0.83 %) is not below the 0.5 % HIGH
band. -/
theorem c8_spread :
    ¬((listMax ((freshSources c8State 0).map Prod.snd) -
        listMin ((freshSources c8State 0).map Prod.snd)) /
        listMin ((freshSources c8State 0).map Prod.snd) < 5 / 1000) := by
  rw [c8State_eq]
  norm_num [freshSources, listMin, listMax]

/-! ### Claim theorems -/

/-- Claim C1: a non-triggered price alert with an existing loan fires
exactly when, for direction BELOW,
`(prev > 0 ∧ prev ≥ threshold ∧ curr < threshold) ∨ (prev = 0 ∧ curr < threshold)`
(and symmetrically for ABOVE), where `prev` is the engine's previous price
and `curr` the delivered price; and delivering 70 000 → 65 000 → 58 000 →
55 000 to a fresh engine with a BELOW-60 000 alert produces exactly one
notification, on the 58 000 update. -/
theorem C1_price_crossing :
    (∀ (id tok : String) (thr : ℚ) (ta : Option ℚ) (loans : List Loan)
        (prev curr now : ℚ),
      (stepPriceAlert loans prev curr now ⟨id, tok, thr, .BELOW, false, ta⟩).2 ≠ [] ↔
        ((loans.find? (fun l => l.token = tok)).isSome ∧
          ((0 < prev ∧ thr ≤ prev ∧ curr < thr) ∨ (prev = 0 ∧ curr < thr)))) ∧
    (∀ (id tok : String) (thr : ℚ) (ta : Option ℚ) (loans : List Loan)
        (prev curr now : ℚ),
      (stepPriceAlert loans prev curr now ⟨id, tok, thr, .ABOVE, false, ta⟩).2 ≠ [] ↔
        ((loans.find? (fun l => l.token = tok)).isSome ∧
          ((0 < prev ∧ prev ≤ thr ∧ thr < curr) ∨ (prev = 0 ∧ thr < curr)))) ∧
    s2Run1.2 = [] ∧ s2Run2.2 = [] ∧
    s2Run3.2 = [⟨44444, "a1", 58000, 60000⟩] ∧ s2Run4.2 = [] :=
  ⟨below_fires_iff, above_fires_iff, by decide, by decide, by decide, by decide⟩

/-- Claim C2: once every alert (price or LTV) bearing a given id is
triggered, no sequence of subsequent price updates emits a notification or
`ALERT_TRIGGERED` event for that id, and those alerts are still triggered
afterwards — the `triggered : false → true` transition is terminal. -/
theorem C2_triggered_terminal (e : EngineState) (updates : List (ℚ × ℚ))
    (aid : String)
    (hp : ∀ b ∈ e.store.priceAlerts, b.alert_id = aid → b.triggered = true)
    (hl : ∀ b ∈ e.store.ltvAlerts, b.alert_id = aid → b.triggered = true) :
    (∀ ev ∈ (runUpdates e updates).2, ev.alert_id ≠ aid) ∧
    (∀ b ∈ (runUpdates e updates).1.store.priceAlerts,
      b.alert_id = aid → b.triggered = true) ∧
    (∀ b ∈ (runUpdates e updates).1.store.ltvAlerts,
      b.alert_id = aid → b.triggered = true) :=
  runUpdates_invariant updates e aid hp hl

/-- Witness for C2 at a concrete triggered alert and price trajectory. -/
theorem C2_triggered_terminal_witness :
    (∀ ev ∈ (runUpdates c2Engine [(55000, 4), (70000, 5), (50000, 6)]).2,
      ev.alert_id ≠ "a1") ∧
    (∀ b ∈ (runUpdates c2Engine [(55000, 4), (70000, 5), (50000, 6)]).1.store.priceAlerts,
      b.alert_id = "a1" → b.triggered = true) ∧
    (∀ b ∈ (runUpdates c2Engine [(55000, 4), (70000, 5), (50000, 6)]).1.store.ltvAlerts,
      b.alert_id = "a1" → b.triggered = true) :=
  C2_triggered_terminal c2Engine [(55000, 4), (70000, 5), (50000, 6)] "a1"
    (by decide) (by decide)

/-- Claim C3: while the circuit breaker is tripped (the median deviates
beyond `circuit_breaker_pct / 100` and less than 60 000 ms have elapsed
since the trip), `computeUpdate` returns the current median with
`circuit_breaker = true`, appends a sample carrying `last_known_good`
instead of the median, and does not advance `last_known_good`; moreover
`last_known_good` is only ever assigned from the median of an update
returned with `circuit_breaker = false`. -/
theorem C3_tripped_update :
    (∀ (s : AggState) (now : ℚ),
      freshSources s now ≠ [] →
      0 < s.lastKnownGoodPrice →
      s.config.circuit_breaker_pct / 100 <
        |medianOf ((freshSources s now).map Prod.snd) - s.lastKnownGoodPrice| /
          s.lastKnownGoodPrice →
      now - (if s.circuitBreakerActive then s.circuitBreakerTriggeredAt
        else now) < 60000 →
      (((computeUpdate s now).1).map PriceUpdate.price =
          some (medianOf ((freshSources s now).map Prod.snd)) ∧
       ((computeUpdate s now).1).map PriceUpdate.circuit_breaker = some true ∧
       (computeUpdate s now).2.samples = addSample s.samples
         ⟨s.lastKnownGoodPrice, now, (freshSources s now).map Prod.fst⟩ ∧
       (computeUpdate s now).2.lastKnownGoodPrice = s.lastKnownGoodPrice)) ∧
    (∀ (s : AggState) (now : ℚ),
      (computeUpdate s now).2.lastKnownGoodPrice ≠ s.lastKnownGoodPrice →
      ∃ u, (computeUpdate s now).1 = some u ∧ u.circuit_breaker = false ∧
        u.price = (computeUpdate s now).2.lastKnownGoodPrice ∧
        u.price = medianOf ((freshSources s now).map Prod.snd)) :=
  ⟨fun s now hA hlkg hdev hel => tripped_branch s now hA hlkg hdev hel,
   fun s now h => lastKnownGood_change s now h⟩

/-- Witness for C3 at the S6 trip (72 000 against a 60 000 baseline). -/
theorem C3_tripped_update_witness :
    ((computeUpdate cbState1 5000).1).map PriceUpdate.price =
        some (medianOf ((freshSources cbState1 5000).map Prod.snd)) ∧
    ((computeUpdate cbState1 5000).1).map PriceUpdate.circuit_breaker = some true ∧
    (computeUpdate cbState1 5000).2.samples = addSample cbState1.samples
      ⟨cbState1.lastKnownGoodPrice, 5000, (freshSources cbState1 5000).map Prod.fst⟩ ∧
    (computeUpdate cbState1 5000).2.lastKnownGoodPrice =
      cbState1.lastKnownGoodPrice :=
  C3_tripped_update.1 cbState1 5000
    (by rw [freshSources_cbState1]; simp)
    (by rw [cbState1_eq]; norm_num)
    (by rw [median_cbState1, cbState1_eq]; norm_num [defaultConfig])
    (by rw [cbState1_eq]; norm_num)

/-- Counterexample to claim C4: in `cbState2` the breaker has been tripped
for 61 s, the median (72 000) still deviates from `last_known_good`
(60 000) by more than `circuit_breaker_pct / 100`, yet `computeUpdate`
returns `circuit_breaker = false` and advances `last_known_good` to 72 000
instead of re-tripping. -/
theorem C4_counterexample :
    cbState2.circuitBreakerActive = true ∧
    60000 ≤ (66000 : ℚ) - cbState2.circuitBreakerTriggeredAt ∧
    cbState2.lastKnownGoodPrice = 60000 ∧
    cbState2.config.circuit_breaker_pct / 100 <
      |medianOf ((freshSources cbState2 66000).map Prod.snd) -
        cbState2.lastKnownGoodPrice| / cbState2.lastKnownGoodPrice ∧
    ((computeUpdate cbState2 66000).1).map PriceUpdate.circuit_breaker =
      some false ∧
    (computeUpdate cbState2 66000).2.lastKnownGoodPrice = 72000 := by
  refine ⟨by rw [cbState2_eq], by rw [cbState2_eq]; norm_num,
    by rw [cbState2_eq], ?_, ?_, ?_⟩
  · rw [median_cbState2, cbState2_eq]
    norm_num [defaultConfig]
  · rw [cbState2_eq]
    norm_num [computeUpdate, acceptUpdate, freshSources, medianOf,
      List.insertionSort, List.orderedInsert, List.getD, addSample,
      computeTwap, computeConfidence, listMin, listMax, twapSums, defaultConfig]
  · rw [cbState2_eq]
    norm_num [computeUpdate, acceptUpdate, freshSources, medianOf,
      List.insertionSort, List.orderedInsert, List.getD, addSample,
      computeTwap, computeConfidence, listMin, listMax, twapSums, defaultConfig]

/-- Claim C4 (amended): once the breaker has been tripped for at least
60 000 ms, the next `computeUpdate` clears the trip and accepts the median
even if it still deviates beyond the threshold — returning
`circuit_breaker = false` and advancing `last_known_good` to that median;
only a later `computeUpdate` whose median deviates from the newly accepted
`last_known_good` by more than `circuit_breaker_pct / 100` trips the
breaker again (returning `circuit_breaker = true` and not advancing
`last_known_good`). -/
theorem C4_amended :
    (∀ (s : AggState) (now : ℚ),
      freshSources s now ≠ [] →
      0 < s.lastKnownGoodPrice →
      s.config.circuit_breaker_pct / 100 <
        |medianOf ((freshSources s now).map Prod.snd) - s.lastKnownGoodPrice| /
          s.lastKnownGoodPrice →
      s.circuitBreakerActive = true →
      60000 ≤ now - s.circuitBreakerTriggeredAt →
      (((computeUpdate s now).1).map PriceUpdate.circuit_breaker = some false ∧
       ((computeUpdate s now).1).map PriceUpdate.price =
          some (medianOf ((freshSources s now).map Prod.snd)) ∧
       (computeUpdate s now).2.lastKnownGoodPrice =
          medianOf ((freshSources s now).map Prod.snd) ∧
       (computeUpdate s now).2.circuitBreakerActive = false)) ∧
    (∀ (s : AggState) (now : ℚ),
      freshSources s now ≠ [] →
      0 < s.lastKnownGoodPrice →
      s.config.circuit_breaker_pct / 100 <
        |medianOf ((freshSources s now).map Prod.snd) - s.lastKnownGoodPrice| /
          s.lastKnownGoodPrice →
      s.circuitBreakerActive = false →
      (((computeUpdate s now).1).map PriceUpdate.circuit_breaker = some true ∧
       (computeUpdate s now).2.lastKnownGoodPrice = s.lastKnownGoodPrice ∧
       (computeUpdate s now).2.circuitBreakerActive = true ∧
       (computeUpdate s now).2.circuitBreakerTriggeredAt = now)) :=
  ⟨fun s now hA hlkg hdev hb hel => clear_branch s now hA hlkg hdev hb hel,
   fun s now hA hlkg hdev hb => fresh_trip s now hA hlkg hdev hb⟩

/-- Witness for the amended C4 at the S6 state 61 s after the trip. -/
theorem C4_amended_witness :
    ((computeUpdate cbState2 66000).1).map PriceUpdate.circuit_breaker =
        some false ∧
    ((computeUpdate cbState2 66000).1).map PriceUpdate.price =
        some (medianOf ((freshSources cbState2 66000).map Prod.snd)) ∧
    (computeUpdate cbState2 66000).2.lastKnownGoodPrice =
        medianOf ((freshSources cbState2 66000).map Prod.snd) ∧
    (computeUpdate cbState2 66000).2.circuitBreakerActive = false :=
  C4_amended.1 cbState2 66000
    (by rw [freshSources_cbState2]; simp)
    (by rw [cbState2_eq]; norm_num)
    (by rw [median_cbState2, cbState2_eq]; norm_num [defaultConfig])
    (by rw [cbState2_eq])
    (by rw [cbState2_eq]; norm_num)

/-- Claim C5: `computeUpdate` returns `null` if and only if no source has
a tick younger than 30 000 ms at the moment of the call (so whenever at
least one fresh tick exists, a non-null update is returned). -/
theorem C5_null_iff_stale (s : AggState) (now : ℚ) :
    (computeUpdate s now).1 = none ↔
      ∀ p ∈ s.sourcePrices, ¬(now - p.2.timestamp < 30000) := by
  rw [computeUpdate_none_iff]
  simp [freshSources, List.map_eq_nil_iff, List.filter_eq_nil_iff]

/-- Claim C6: every non-null update's price is the median of the fresh
per-source prices — the middle element of the ascending sort for odd
counts and the mean of the two middle elements for even counts; in
particular the median of three prices is the middle value and the median
of two prices is their mean. -/
theorem C6_median :
    (∀ (s : AggState) (now : ℚ),
      ((computeUpdate s now).1).map PriceUpdate.price =
        if freshSources s now = [] then none
        else some (medianOf ((freshSources s now).map Prod.snd))) ∧
    (∀ a b c : ℚ,
      medianOf [a, b, c] = a + b + c - min a (min b c) - max a (max b c)) ∧
    (∀ a b : ℚ, medianOf [a, b] = (min a b + max a b) / 2) :=
  ⟨computeUpdate_price, medianOf_three, medianOf_two⟩

/-- Claim C7: every non-null update's confidence is `computeConfidence` of
the fresh source set, which is spread-banded for three or more sources
(HIGH below 0.5 %, MEDIUM in [0.5 %, 1 %), LOW at or above 1 %), MEDIUM
for exactly two sources, and LOW for one. -/
theorem C7_confidence :
    (∀ (s : AggState) (now : ℚ),
      ((computeUpdate s now).1).map PriceUpdate.confidence =
        if freshSources s now = [] then none
        else some (computeConfidence (freshSources s now))) ∧
    (∀ srcs : List (String × ℚ), 3 ≤ srcs.length →
      ((computeConfidence srcs = .HIGH ↔
        (listMax (srcs.map Prod.snd) - listMin (srcs.map Prod.snd)) /
          listMin (srcs.map Prod.snd) < 5 / 1000) ∧
       (computeConfidence srcs = .MEDIUM ↔
        (5 / 1000 ≤ (listMax (srcs.map Prod.snd) - listMin (srcs.map Prod.snd)) /
          listMin (srcs.map Prod.snd) ∧
         (listMax (srcs.map Prod.snd) - listMin (srcs.map Prod.snd)) /
          listMin (srcs.map Prod.snd) < 1 / 100)) ∧
       (computeConfidence srcs = .LOW ↔
        1 / 100 ≤ (listMax (srcs.map Prod.snd) - listMin (srcs.map Prod.snd)) /
          listMin (srcs.map Prod.snd)))) ∧
    (∀ srcs : List (String × ℚ), srcs.length = 2 →
      computeConfidence srcs = .MEDIUM) ∧
    (∀ srcs : List (String × ℚ), srcs.length = 1 →
      computeConfidence srcs = .LOW) :=
  ⟨computeUpdate_confidence, confidence_three, confidence_two, confidence_one⟩

/-- Witness for C7 at concrete three-, two- and one-source sets. -/
theorem C7_confidence_witness :
    computeConfidence [("Kraken", (60000 : ℚ)), ("Coinbase", 60500),
      ("Bitstamp", 60200)] = .MEDIUM ∧
    computeConfidence [("Kraken", (60000 : ℚ)), ("Coinbase", 60500)] = .MEDIUM ∧
    computeConfidence [("Kraken", (60000 : ℚ))] = .LOW :=
  ⟨((C7_confidence.2.1 [("Kraken", (60000 : ℚ)), ("Coinbase", 60500),
      ("Bitstamp", 60200)] (by norm_num)).2.1).mpr
      (by norm_num [listMin, listMax]),
   C7_confidence.2.2.1 [("Kraken", (60000 : ℚ)), ("Coinbase", 60500)]
      (by norm_num),
   C7_confidence.2.2.2 [("Kraken", (60000 : ℚ))] (by norm_num)⟩

/-- Counterexample to claim C8: with Kraken = 60 000, Coinbase = 60 500,
Bitstamp = 60 200 the spread is 500 / 60 000 ≈ 0.83 %, which is not below
the 0.5 % HIGH band, so the returned confidence is MEDIUM, not HIGH. -/
theorem C8_counterexample :
    ((computeUpdate c8State 0).1).map PriceUpdate.confidence = some .MEDIUM ∧
    ((computeUpdate c8State 0).1).map PriceUpdate.confidence ≠ some .HIGH ∧
    ((computeUpdate c8State 0).1).map PriceUpdate.price = some 60200 ∧
    ¬((listMax ((freshSources c8State 0).map Prod.snd) -
        listMin ((freshSources c8State 0).map Prod.snd)) /
        listMin ((freshSources c8State 0).map Prod.snd) < 5 / 1000) := by
  refine ⟨?_, ?_, ?_, c8_spread⟩
  · rw [c8_update_fst]
    rfl
  · rw [c8_update_fst]
    simp
  · rw [c8_update_fst]
    rfl

/-- Claim C8 (amended): after ingesting Kraken = 60 000, Coinbase = 60 500
and Bitstamp = 60 200 as fresh ticks, `computeUpdate` returns price
60 200, a sources list that is a permutation of the three names, and
confidence MEDIUM (the ≈ 0.83 % spread falls in the MEDIUM band). -/
theorem C8_median_aggregation :
    ∃ u, (computeUpdate c8State 0).1 = some u ∧ u.price = 60200 ∧
      u.sources.Perm ["Kraken", "Coinbase", "Bitstamp"] ∧
      u.confidence = .MEDIUM :=
  ⟨⟨60200, 0, ["Kraken", "Coinbase", "Bitstamp"], 60200, .MEDIUM, false⟩,
   c8_update_fst, rfl, List.Perm.refl _, rfl⟩

/-- Claim C9: every non-null update's `twap_5m` is the TWAP of the
post-append sample ring over the trailing 300 000 ms window; the TWAP of
an empty window is `last_known_good` (0 when none exists), of a singleton
window that sample's price, and otherwise the interval-weighted average
where each sample is weighted by the time until its successor (until `now`
for the last). -/
theorem C9_twap :
    (∀ (s : AggState) (now : ℚ) (u : PriceUpdate) (s' : AggState),
      computeUpdate s now = (some u, s') →
      u.twap_5m = computeTwap s'.samples s'.lastKnownGoodPrice now 300000) ∧
    (∀ (samples : List PriceSample) (lkg now w : ℚ),
      samples.filter (fun x => now - w ≤ x.timestamp) = [] →
      computeTwap samples lkg now w = lkg) ∧
    (∀ (samples : List PriceSample) (lkg now w : ℚ) (smp : PriceSample),
      samples.filter (fun x => now - w ≤ x.timestamp) = [smp] →
      computeTwap samples lkg now w = smp.price) ∧
    (∀ (samples : List PriceSample) (lkg now w : ℚ),
      0 < specTotalWeight now (samples.filter (fun x => now - w ≤ x.timestamp)) →
      computeTwap samples lkg now w =
        specWeightedSum now (samples.filter (fun x => now - w ≤ x.timestamp)) /
          specTotalWeight now (samples.filter (fun x => now - w ≤ x.timestamp))) :=
  ⟨computeUpdate_twap, computeTwap_empty, computeTwap_single, computeTwap_weighted⟩

/-- Witness for C9: a singleton window returns that sample's price, and an
empty ring returns the last known good price. -/
theorem C9_twap_witness :
    computeTwap [⟨100, 0, ["Kraken"]⟩] 0 0 300000 = 100 ∧
    computeTwap [] 60000 0 300000 = 60000 :=
  ⟨C9_twap.2.2.1 [⟨100, 0, ["Kraken"]⟩] 0 0 300000 ⟨100, 0, ["Kraken"]⟩
      (by norm_num [List.filter]),
   C9_twap.2.1 [] 60000 0 300000 rfl⟩

/-- Claim C10: for `0 < margin_call_ltv < liquidation_ltv`, `classifyTier`
maps LTV to LIQUIDATION on `[liq, ∞)`, RED on `[mc, liq)`, ORANGE on
`[0.8·mc, mc)`, YELLOW on `[0.6·mc, 0.8·mc)` and GREEN otherwise — i.e.
on `(-∞, 0.6·mc)`, since the other four bands tile `[0.6·mc, ∞)`. -/
theorem C10_classify_tier (ltv mc liq : ℚ) (hmc : 0 < mc) (hlt : mc < liq) :
    (classifyTier ltv mc liq = .LIQUIDATION ↔ liq ≤ ltv) ∧
    (classifyTier ltv mc liq = .RED ↔ mc ≤ ltv ∧ ltv < liq) ∧
    (classifyTier ltv mc liq = .ORANGE ↔ mc * (8 / 10) ≤ ltv ∧ ltv < mc) ∧
    (classifyTier ltv mc liq = .YELLOW ↔
      mc * (6 / 10) ≤ ltv ∧ ltv < mc * (8 / 10)) ∧
    (classifyTier ltv mc liq = .GREEN ↔ ltv < mc * (6 / 10)) :=
  classify_iffs ltv mc liq hmc hlt

/-- Witness for C10 at the loan defaults `mc = 0.75`, `liq = 0.90`. -/
theorem C10_classify_tier_witness :
    (classifyTier (30 / 100) (75 / 100) (90 / 100) = .LIQUIDATION ↔
      (90 / 100 : ℚ) ≤ 30 / 100) ∧
    (classifyTier (30 / 100) (75 / 100) (90 / 100) = .RED ↔
      (75 / 100 : ℚ) ≤ 30 / 100 ∧ (30 / 100 : ℚ) < 90 / 100) ∧
    (classifyTier (30 / 100) (75 / 100) (90 / 100) = .ORANGE ↔
      (75 / 100 : ℚ) * (8 / 10) ≤ 30 / 100 ∧ (30 / 100 : ℚ) < 75 / 100) ∧
    (classifyTier (30 / 100) (75 / 100) (90 / 100) = .YELLOW ↔
      (75 / 100 : ℚ) * (6 / 10) ≤ 30 / 100 ∧
        (30 / 100 : ℚ) < (75 / 100) * (8 / 10)) ∧
    (classifyTier (30 / 100) (75 / 100) (90 / 100) = .GREEN ↔
      (30 / 100 : ℚ) < (75 / 100) * (6 / 10)) :=
  C10_classify_tier (30 / 100) (75 / 100) (90 / 100) (by norm_num) (by norm_num)

end LoanMonitor
